import Mathlib

/-!
Verification of the BURN4H2 dispatch model against its specification.

The Pyomo blocks of the repository are shallowly embedded over ℚ: every
per-hour variable of a block becomes a function `ℕ → ℚ` (or `ℕ → ℤ` for the
integer auxiliaries), and a block's constraint set becomes a feasibility
predicate quantified over the hour set `Finset.Icc 1 N`, mirroring the
model's ordered time set `t = {1, …, N}`.  Binary Pyomo variables are
embedded as rational-valued functions constrained to `{0, 1}`.
-/

namespace Burn4H2

/-! ### CHP block (src/burn4h2/blocks/chp.py, `Chp.chp_block_rule`) -/

/-- Parameter table of a CHP asset (rows `min`/`max` of the asset csv). -/
structure ChpData where
  power_min : ℚ
  power_max : ℚ
  gas_min : ℚ
  gas_max : ℚ
  heat_min : ℚ
  heat_max : ℚ
  co2_min : ℚ
  co2_max : ℚ
  waste_heat_min : ℚ
  waste_heat_max : ℚ

/-- Per-hour variables of a CHP block.  `natural_gas` is only constrained
when the hydrogen admixture factor is positive, matching the source where
the variable is only declared in that branch. -/
structure ChpSol where
  bin : ℕ → ℚ
  gas : ℕ → ℚ
  power : ℕ → ℚ
  heat : ℕ → ℚ
  co2 : ℕ → ℚ
  waste_heat : ℕ → ℚ
  hydrogen : ℕ → ℚ
  natural_gas : ℕ → ℚ

/-- Hydrogen heating value [MJ/kg] (`HV_H2` in the source). -/
def HV_H2 : ℚ := 120.0

/-- Natural gas heating value [MJ/kg] (`HV_NG` in the source). -/
def HV_NG : ℚ := 47.0

/-- Hydrogen density [kg/m³] (`RHO_H2` in the source). -/
def RHO_H2 : ℚ := 0.09

/-- Natural gas density [kg/m³] (`RHO_NG` in the source). -/
def RHO_NG : ℚ := 0.68

/-- Slope `a = (q_max - q_min) / (power_max - power_min)` of the chord
coupling used by every `*_depends_on_power_rule`. -/
def chordSlope (qmax qmin pmax pmin : ℚ) : ℚ :=
  (qmax - qmin) / (pmax - pmin)

/-- Offset `b = q_max - a * power_max` of the chord coupling. -/
def chordOffset (qmax qmin pmax pmin : ℚ) : ℚ :=
  qmax - chordSlope qmax qmin pmax pmin * pmax

/-- Energy share of hydrogen in the fuel mix at volumetric admixture `f`
(`energy_fraction_h2` inside `hydrogen_depends_on_gas_rule`). -/
def energy_fraction_h2 (f : ℚ) : ℚ :=
  (f * (RHO_H2 * HV_H2)) / (f * (RHO_H2 * HV_H2) + (1 - f) * (RHO_NG * HV_NG))

/-- Energy share of natural gas in the fuel mix at volumetric admixture `f`
(`energy_fraction_ng` inside `ngas_depends_on_gas_rule`). -/
def energy_fraction_ng (f : ℚ) : ℚ :=
  ((1 - f) * (RHO_NG * HV_NG)) / (f * (RHO_H2 * HV_H2) + (1 - f) * (RHO_NG * HV_NG))

/-- Feasible set of one CHP block with admixture factor `f` and optional
`forced_operation_time` kwarg, over the hour set `{1, …, N}`.  The branch on
`0 < f` mirrors `if 'hydrogen_admixture' in self.kwargs and float(...) > 0`:
for positive factors the plain co2 chord is deleted and replaced by the
`(1 - f)`-scaled chord, and the energy-weighted fuel split is added. -/
def chpFeasible (d : ChpData) (f : ℚ) (forced : Option ℕ) (N : ℕ) (s : ChpSol) : Prop :=
  (∀ t ∈ Finset.Icc 1 N,
    (s.bin t = 0 ∨ s.bin t = 1)
    ∧ 0 ≤ s.gas t ∧ 0 ≤ s.power t ∧ 0 ≤ s.heat t ∧ 0 ≤ s.co2 t
    ∧ 0 ≤ s.waste_heat t ∧ 0 ≤ s.hydrogen t
    ∧ s.power t ≤ d.power_max * s.bin t
    ∧ d.power_min * s.bin t ≤ s.power t
    ∧ s.gas t = chordSlope d.gas_max d.gas_min d.power_max d.power_min * s.power t
        + chordOffset d.gas_max d.gas_min d.power_max d.power_min * s.bin t
    ∧ s.heat t = chordSlope d.heat_max d.heat_min d.power_max d.power_min * s.power t
        + chordOffset d.heat_max d.heat_min d.power_max d.power_min * s.bin t
    ∧ s.waste_heat t =
        chordSlope d.waste_heat_max d.waste_heat_min d.power_max d.power_min * s.power t
        + chordOffset d.waste_heat_max d.waste_heat_min d.power_max d.power_min * s.bin t
    ∧ (0 < f →
        s.co2 t = (chordSlope d.co2_max d.co2_min d.power_max d.power_min * s.power t
            + chordOffset d.co2_max d.co2_min d.power_max d.power_min * s.bin t) * (1 - f)
        ∧ 0 ≤ s.natural_gas t
        ∧ s.hydrogen t = s.gas t * energy_fraction_h2 f
        ∧ s.natural_gas t = s.gas t * energy_fraction_ng f)
    ∧ (¬ 0 < f →
        s.co2 t = chordSlope d.co2_max d.co2_min d.power_max d.power_min * s.power t
          + chordOffset d.co2_max d.co2_min d.power_max d.power_min * s.bin t))
  ∧ (match forced with
     | some k => (k : ℚ) ≤ ∑ t ∈ Finset.Icc 1 N, s.bin t
     | none => True)

/-- Concrete CHP parameter table used by the evaluation witnesses. -/
def chpDataW : ChpData :=
  { power_min := 1, power_max := 2
    gas_min := 2, gas_max := 4
    heat_min := 1, heat_max := 2
    co2_min := 1, co2_max := 2
    waste_heat_min := 1, waste_heat_max := 2 }

/-- Single-hour CHP solution at full load with admixture `f = 1/2`. -/
def chpSolHalf : ChpSol :=
  { bin := fun _ => 1
    gas := fun _ => 4
    power := fun _ => 2
    heat := fun _ => 2
    co2 := fun _ => 1
    waste_heat := fun _ => 2
    hydrogen := fun _ => 1080 / 1069
    natural_gas := fun _ => 3196 / 1069 }

/-- Single-hour CHP solution at full load with admixture `f = 0`. -/
def chpSolZero : ChpSol :=
  { bin := fun _ => 1
    gas := fun _ => 4
    power := fun _ => 2
    heat := fun _ => 2
    co2 := fun _ => 2
    waste_heat := fun _ => 2
    hydrogen := fun _ => 0
    natural_gas := fun _ => 0 }

/-! ### Objective (src/burn4h2/main.py, `Model.obj_expression`) -/

/-- Exogenous price series and scalar price parameters of the model. -/
structure ObjPrices where
  gas_price : ℕ → ℚ
  power_price : ℕ → ℚ
  hydrogen_price : ℕ → ℚ
  CO2_PRICE : ℚ
  HEAT_PRICE : ℚ
  H2_PRICE : ℚ
  USE_CONST_H2_PRICE : ℚ

/-- Primal series entering the objective. -/
structure ObjVars where
  ngas_supply : ℕ → ℚ
  chp1_co2 : ℕ → ℚ
  chp2_co2 : ℕ → ℚ
  power_balance : ℕ → ℚ
  hydrogen_supply : ℕ → ℚ
  heat_feedin : ℕ → ℚ

/-- Hydrogen cost term of `obj_expression`: the branch on
`value(m.USE_CONST_H2_PRICE)` uses Python truthiness of the 0/1 parameter. -/
def hydrogen_cost (N : ℕ) (p : ObjPrices) (v : ObjVars) : ℚ :=
  if p.USE_CONST_H2_PRICE ≠ 0 then
    ∑ t ∈ Finset.Icc 1 N, v.hydrogen_supply t * p.H2_PRICE
  else
    ∑ t ∈ Finset.Icc 1 N, v.hydrogen_supply t * p.hydrogen_price t

/-- The model objective, summand by summand as written in `obj_expression`. -/
def obj_expression (N : ℕ) (p : ObjPrices) (v : ObjVars) : ℚ :=
  (∑ t ∈ Finset.Icc 1 N, v.ngas_supply t * p.gas_price t)
  + (∑ t ∈ Finset.Icc 1 N, v.chp1_co2 t * p.CO2_PRICE)
  + (∑ t ∈ Finset.Icc 1 N, v.chp2_co2 t * p.CO2_PRICE)
  + (∑ t ∈ Finset.Icc 1 N, v.power_balance t * p.power_price t)
  + hydrogen_cost N p v
  - (∑ t ∈ Finset.Icc 1 N, v.heat_feedin t * p.HEAT_PRICE)

/-- Optimization sense of a Pyomo objective. -/
inductive ObjSense where
  | minimize : ObjSense
  | maximize : ObjSense
deriving DecidableEq

/-- Sense passed in `Objective(rule=self.obj_expression, sense=minimize)`. -/
def objective_sense : ObjSense := ObjSense.minimize

/-! ### Simple storages (src/blocks/storage.py: `HydrogenStorage`,
`HeatStorage`, `GeoHeatStorage`) -/

/-- Parameter table of a single-carrier buffer storage: maximal flow per
hour and the content bounds. -/
structure SimpleStorageData where
  flow_max : ℚ
  content_max : ℚ
  content_min : ℚ

/-- Per-hour variables of a single-carrier buffer storage (the
charging/discharging/balance/content skeleton shared by the hydrogen, heat
and geothermal classes). -/
structure SimpleStorageSol where
  balance : ℕ → ℚ
  charging : ℕ → ℚ
  discharging : ℕ → ℚ
  content : ℕ → ℚ
  bin_charge : ℕ → ℚ
  bin_discharge : ℕ → ℚ

/-- Constraints shared by the three simple storage classes, without the
charge/discharge exclusivity rule (which differs between them). -/
def simpleStorageCore (d : SimpleStorageData) (N : ℕ) (s : SimpleStorageSol) : Prop :=
  ∀ t ∈ Finset.Icc 1 N,
    0 ≤ s.charging t ∧ 0 ≤ s.discharging t ∧ 0 ≤ s.content t
    ∧ (s.bin_charge t = 0 ∨ s.bin_charge t = 1)
    ∧ (s.bin_discharge t = 0 ∨ s.bin_discharge t = 1)
    ∧ s.charging t ≤ d.flow_max * s.bin_charge t
    ∧ s.discharging t ≤ d.flow_max * s.bin_discharge t
    ∧ s.balance t = s.discharging t - s.charging t
    ∧ s.content t ≤ d.content_max
    ∧ d.content_min ≤ s.content t
    ∧ (t = 1 → s.content t = 0 - s.balance t)
    ∧ (t ≠ 1 → s.content t = s.content (t - 1) - s.balance t)

/-- Feasible set of `HydrogenStorage.hydrogen_storage_block_rule`:
core skeleton plus `binary_rule`, `bin_charge + bin_discharge == 1`. -/
def hydrogenStorageFeasible (d : SimpleStorageData) (N : ℕ) (s : SimpleStorageSol) : Prop :=
  simpleStorageCore d N s
  ∧ ∀ t ∈ Finset.Icc 1 N, s.bin_charge t + s.bin_discharge t = 1

/-- Feasible set of `HeatStorage.heat_storage_block_rule`:
core skeleton plus `binary_rule`, `bin_charge + bin_discharge == 1`. -/
def heatStorageFeasible (d : SimpleStorageData) (N : ℕ) (s : SimpleStorageSol) : Prop :=
  simpleStorageCore d N s
  ∧ ∀ t ∈ Finset.Icc 1 N, s.bin_charge t + s.bin_discharge t = 1

/-- Feasible set of `GeoHeatStorage.geo_heat_storage_block_rule`: the
`binary_constraint` is commented out in the source, so only the core
skeleton remains. -/
def geoHeatStorageFeasible (d : SimpleStorageData) (N : ℕ) (s : SimpleStorageSol) : Prop :=
  simpleStorageCore d N s

/-- Modelled from the spec: the heat storage exclusivity constraint as the
specification describes it (`bin_charge + bin_discharge ≤ 1`, allowing an
idle hour).  This definition follows the spec wording and exists only to be
compared against `heatStorageFeasible`, which embeds the source. -/
def heatStorageSpecIdleFeasible (d : SimpleStorageData) (N : ℕ) (s : SimpleStorageSol) : Prop :=
  simpleStorageCore d N s
  ∧ ∀ t ∈ Finset.Icc 1 N, s.bin_charge t + s.bin_discharge t ≤ 1

/-! ### Battery storage (src/blocks/storage.py, `BatteryStorage`) -/

/-- Parameter table of the battery storage asset. -/
structure BatteryData where
  power_max : ℚ
  capacity_max : ℚ
  capacity_min : ℚ

/-- Per-hour variables of a battery block.  `aux_remainder` and
`aux_quotient` carry the `domain=Integers` declaration of the source, so
they are embedded as integer-valued series.  `cyclic_switch_bin` is only
constrained when the `cyclic_behaviour` kwarg is present. -/
structure BatterySol where
  power_balance : ℕ → ℚ
  power_charging : ℕ → ℚ
  power_discharging : ℕ → ℚ
  power_content : ℕ → ℚ
  bin_charge : ℕ → ℚ
  bin_discharge : ℕ → ℚ
  bin_switch : ℕ → ℚ
  aux_remainder : ℕ → ℤ
  aux_quotient : ℕ → ℤ
  cyclic_switch_bin : ℕ → ℚ

/-- The quantity `switch_state = (state t) - (state (t-1))` with
`state = bin_charge - bin_discharge`, as computed inside the switch rules. -/
def switchState (s : BatterySol) (t : ℕ) : ℚ :=
  (s.bin_charge t - s.bin_discharge t) - (s.bin_charge (t - 1) - s.bin_discharge (t - 1))

/-- Feasible set of `BatteryStorage.battery_storage_block_rule` with an
optional `cyclic_behaviour` kwarg.  Every `if i == 1` branch of the source
rules appears as a `t = 1` implication. -/
def batteryFeasible (d : BatteryData) (cyclic : Option ℕ) (N : ℕ) (s : BatterySol) : Prop :=
  (∀ t ∈ Finset.Icc 1 N,
    0 ≤ s.power_charging t ∧ 0 ≤ s.power_discharging t ∧ 0 ≤ s.power_content t
    ∧ (s.bin_charge t = 0 ∨ s.bin_charge t = 1)
    ∧ (s.bin_discharge t = 0 ∨ s.bin_discharge t = 1)
    ∧ (s.bin_switch t = 0 ∨ s.bin_switch t = 1)
    ∧ 0 ≤ s.aux_remainder t ∧ s.aux_remainder t ≤ 3
    ∧ s.power_charging t ≤ d.power_max * s.bin_charge t
    ∧ s.power_discharging t ≤ d.power_max * s.bin_discharge t
    ∧ s.power_balance t = s.power_discharging t - s.power_charging t
    ∧ s.bin_charge t + s.bin_discharge t = 1
    ∧ s.power_content t ≤ d.capacity_max
    ∧ d.capacity_min ≤ s.power_content t
    ∧ (t = 1 → s.power_content t = 0 - s.power_balance t)
    ∧ (t ≠ 1 → s.power_content t = s.power_content (t - 1) - s.power_balance t)
    ∧ (t = 1 → s.bin_switch t = 0)
    ∧ (t ≠ 1 → switchState s t ≥ -2 * s.bin_switch t)
    ∧ (t ≠ 1 → 2 * s.bin_switch t ≥ switchState s t)
    ∧ (t ≠ 1 → (s.aux_remainder t : ℚ) * s.bin_switch t = 0)
    ∧ (t = 1 → (s.aux_remainder t : ℚ) = 0)
    ∧ (t ≠ 1 → switchState s t + 2 = 4 * (s.aux_quotient t : ℚ) + (s.aux_remainder t : ℚ)))
  ∧ (match cyclic with
     | some c =>
       ∀ t ∈ Finset.Icc 1 N,
         (s.cyclic_switch_bin t = 0 ∨ s.cyclic_switch_bin t = 1)
         ∧ ((t - 1) % c = 0 → s.cyclic_switch_bin t = 0)
         ∧ (¬ (t - 1) % c = 0 → s.cyclic_switch_bin t = s.bin_switch t)
         ∧ (t % c = 0 → ∑ j ∈ Finset.Icc (t - c + 1) t, s.cyclic_switch_bin j ≤ 1)
     | none => True)

/-! ### Stratified heat storage (src/blocks/storage.py,
`StratifiedHeatStorage.double_storage_block_rule`) -/

/-- Time step Δt = 1 h (`block.delta_t`). -/
def strat_delta_t : ℚ := 1

/-- Loss coefficient of layer S1 (`block.k_loss_S1`). -/
def k_loss_S1 : ℚ := 0.0534

/-- Loss coefficient of layer S2 (`block.k_loss_S2`). -/
def k_loss_S2 : ℚ := 0.0534

/-- Initial capacity of layer S1 in MWh (`block.init_capacity_S1`). -/
def init_capacity_S1 : ℚ := 30

/-- Initial capacity of layer S2 in MWh (`block.init_capacity_S2`). -/
def init_capacity_S2 : ℚ := 20

/-- Maximal discharge heat flow in MW (`block.max_heat_flow`). -/
def max_heat_flow : ℚ := 20

/-- Water density in kg/m³ (`block.water_density`). -/
def water_density : ℚ := 1000

/-- Specific heat capacity of water in MJ/(kg·K) (`block.spec_heat_capacity`). -/
def spec_heat_capacity : ℚ := 4.1868 / 1000

/-- Temperature spread of layer S1 in K (`block.delta_T_S1`). -/
def delta_T_S1 : ℚ := 40

/-- Temperature spread of layer S2 in K (`block.delta_T_S2`). -/
def delta_T_S2 : ℚ := 25

/-- Energy density of layer S1 in MWh/m³ (`block.energy_density_S1`). -/
def energy_density_S1 : ℚ := water_density * spec_heat_capacity * delta_T_S1 / 3600

/-- Energy density of layer S2 in MWh/m³ (`block.energy_density_S2`). -/
def energy_density_S2 : ℚ := water_density * spec_heat_capacity * delta_T_S2 / 3600

/-- Maximal physical vessel volume in m³ (`block.max_total_volume`). -/
def max_total_volume : ℚ := 2000

/-- Per-hour variables of the stratified (double-layer) storage block. -/
structure StratifiedSol where
  Q_dot_ST : ℕ → ℚ
  Q_dot_WP : ℕ → ℚ
  Q_dot_S1_FW : ℕ → ℚ
  Q_dot_S1_NW : ℕ → ℚ
  Q_dot_S2_NW : ℕ → ℚ
  U_S1 : ℕ → ℚ
  U_S2 : ℕ → ℚ
  bin_S1_charge : ℕ → ℚ
  bin_S1_discharge : ℕ → ℚ
  bin_S2_charge : ℕ → ℚ
  bin_S2_discharge : ℕ → ℚ

/-- Feasible set of the double-layer stratified storage.  The active
constraints of the source are the two discharge caps, the two storage
balances (which pin the content at `t = 1` to the declared initial
capacities), the minimal capacities, and the physical volume constraint;
the four binaries are declared but appear in no further constraint. -/
def stratifiedFeasible (N : ℕ) (s : StratifiedSol) : Prop :=
  ∀ t ∈ Finset.Icc 1 N,
    0 ≤ s.Q_dot_ST t ∧ 0 ≤ s.Q_dot_WP t ∧ 0 ≤ s.Q_dot_S1_FW t
    ∧ 0 ≤ s.Q_dot_S1_NW t ∧ 0 ≤ s.Q_dot_S2_NW t
    ∧ 0 ≤ s.U_S1 t ∧ 0 ≤ s.U_S2 t
    ∧ (s.bin_S1_charge t = 0 ∨ s.bin_S1_charge t = 1)
    ∧ (s.bin_S1_discharge t = 0 ∨ s.bin_S1_discharge t = 1)
    ∧ (s.bin_S2_charge t = 0 ∨ s.bin_S2_charge t = 1)
    ∧ (s.bin_S2_discharge t = 0 ∨ s.bin_S2_discharge t = 1)
    ∧ s.Q_dot_S1_FW t + s.Q_dot_S1_NW t ≤ max_heat_flow
    ∧ s.Q_dot_S2_NW t ≤ max_heat_flow
    ∧ (t = 1 → s.U_S1 t = init_capacity_S1)
    ∧ (t ≠ 1 → s.U_S1 t = (1 - k_loss_S1) * s.U_S1 (t - 1)
        + (s.Q_dot_ST t - s.Q_dot_S1_FW t - s.Q_dot_S1_NW t) * strat_delta_t)
    ∧ (t = 1 → s.U_S2 t = init_capacity_S2)
    ∧ (t ≠ 1 → s.U_S2 t = (1 - k_loss_S2) * s.U_S2 (t - 1)
        + (s.Q_dot_WP t - s.Q_dot_S2_NW t) * strat_delta_t)
    ∧ s.U_S1 t / energy_density_S1 + s.U_S2 t / energy_density_S2 ≤ max_total_volume

/-! ### Zone-based stratified storage of the burn4h2 package

`src/burn4h2/main.py` instantiates `storage.StratifiedHeatStorage` from
`burn4h2.blocks.storage` with a `seasonal_discharge_restriction` kwarg and
connects ports `Z1_FW_heat_out`, `Z1_NW_heat_out`, `Z2_NW_heat_out`; that
module is not among the provided sources, so the zone-based variant is
modelled from the specification below. -/

/-- Modelled from the spec: loss rate `k_Z1 = k_Z2 = 0.0534` of the
zone-based stratified store (the module `burn4h2/blocks/storage.py` is
missing from the sources). -/
def k_loss_Z : ℚ := 0.0534

/-- Modelled from the spec: temperature spread of zone Z1, `ΔT_Z1 = 38 K`. -/
def delta_T_Z1 : ℚ := 38

/-- Modelled from the spec: temperature spread of zone Z2, `ΔT_Z2 = 23 K`. -/
def delta_T_Z2 : ℚ := 23

/-- Modelled from the spec: energy density
`e_Z1 = 1000 · (4.1868/1000) · ΔT_Z1 / 3600` MWh/m³. -/
def energy_density_Z1 : ℚ := 1000 * (4.1868 / 1000) * delta_T_Z1 / 3600

/-- Modelled from the spec: energy density
`e_Z2 = 1000 · (4.1868/1000) · ΔT_Z2 / 3600` MWh/m³. -/
def energy_density_Z2 : ℚ := 1000 * (4.1868 / 1000) * delta_T_Z2 / 3600

/-- Modelled from the spec: maximal vessel volume `V_max = 2000 m³`. -/
def V_max_Z : ℚ := 2000

/-- Modelled from the spec: the year-length aware winter half-year hour set
of the seasonal discharge restriction — `{1..2878} ∪ {7295..N}` for
`N = 8760`, `{1..2902} ∪ {7319..N}` for `N = 8784`, and `{1..10} ∪ {11..13}`
for the `N = 168` dummy horizon. -/
def winter_hours (N : ℕ) : Finset ℕ :=
  if N = 8760 then Finset.Icc 1 2878 ∪ Finset.Icc 7295 N
  else if N = 8784 then Finset.Icc 1 2902 ∪ Finset.Icc 7319 N
  else if N = 168 then Finset.Icc 1 10 ∪ Finset.Icc 11 13
  else ∅

/-- Per-hour variables of the zone-based stratified store. -/
structure StratifiedZSol where
  Q_ST : ℕ → ℚ
  Q_WP : ℕ → ℚ
  Q_Z1_FW : ℕ → ℚ
  Q_Z1_NW : ℕ → ℚ
  Q_Z2_NW : ℕ → ℚ
  U_Z1 : ℕ → ℚ
  U_Z2 : ℕ → ℚ

/-- Modelled from the spec: feasible set of the zone-based stratified store
(`burn4h2/blocks/storage.py` is missing from the sources).  Zone balances
with Δt = 1 h and initial fill 0, discharge caps against `heat_max`, the
coupled-volume constraint, and — when `seasonal` is set, as
`src/burn4h2/main.py` does — the winter discharge restriction
`Q_Z1_FW(t) = 0` on the winter hour set. -/
def stratifiedZFeasible (seasonal : Bool) (heat_max : ℚ) (N : ℕ) (s : StratifiedZSol) : Prop :=
  ∀ t ∈ Finset.Icc 1 N,
    0 ≤ s.Q_ST t ∧ 0 ≤ s.Q_WP t ∧ 0 ≤ s.Q_Z1_FW t ∧ 0 ≤ s.Q_Z1_NW t ∧ 0 ≤ s.Q_Z2_NW t
    ∧ 0 ≤ s.U_Z1 t ∧ 0 ≤ s.U_Z2 t
    ∧ (t = 1 → s.U_Z1 t = (1 - k_loss_Z) * 0
        + (s.Q_ST t - s.Q_Z1_FW t - s.Q_Z1_NW t) * 1)
    ∧ (t ≠ 1 → s.U_Z1 t = (1 - k_loss_Z) * s.U_Z1 (t - 1)
        + (s.Q_ST t - s.Q_Z1_FW t - s.Q_Z1_NW t) * 1)
    ∧ (t = 1 → s.U_Z2 t = (1 - k_loss_Z) * 0 + (s.Q_WP t - s.Q_Z2_NW t) * 1)
    ∧ (t ≠ 1 → s.U_Z2 t = (1 - k_loss_Z) * s.U_Z2 (t - 1) + (s.Q_WP t - s.Q_Z2_NW t) * 1)
    ∧ s.Q_Z1_FW t ≤ heat_max
    ∧ s.Q_Z1_NW t + s.Q_Z2_NW t ≤ heat_max
    ∧ s.U_Z1 t / energy_density_Z1 + s.U_Z2 t / energy_density_Z2 ≤ V_max_Z
    ∧ (seasonal = true → t ∈ winter_hours N → s.Q_Z1_FW t = 0)

/-! ### Heat pumps (src/burn4h2/blocks/heatpump.py) -/

/-- Per-hour variables of a heat pump stage. -/
structure HeatpumpSol where
  bin : ℕ → ℚ
  power : ℕ → ℚ
  heat_input : ℕ → ℚ
  heat : ℕ → ℚ
  capacity_compressor : ℕ → ℚ
  volume_flow : ℕ → ℚ
  massflow_refigerant : ℕ → ℚ
  swept_volume : ℕ → ℚ

/-- Stage one compressor inlet enthalpy h1 [kJ/kg]. -/
def hp1_h1 : ℚ := 1480

/-- Stage one compressor outlet enthalpy h2 [kJ/kg]. -/
def hp1_h2 : ℚ := 1625

/-- Stage one evaporator inlet enthalpy h4 [kJ/kg]. -/
def hp1_h4 : ℚ := 395

/-- Stage one compressor inlet temperature T1 [K]. -/
def hp1_T1 : ℚ := 8 + 273.15

/-- Stage one condenser outlet temperature T3 [K]. -/
def hp1_T3 : ℚ := 40 + 273.15

/-- Stage one compressor inlet pressure p1 [Pa]. -/
def hp1_p1 : ℚ := 5.5 * 10 ^ 5

/-- Stage two compressor inlet enthalpy h1 [kJ/kg]. -/
def hp2_h1 : ℚ := 1490

/-- Stage two compressor outlet enthalpy h2 [kJ/kg]. -/
def hp2_h2 : ℚ := 1710

/-- Stage two evaporator inlet enthalpy h4 [kJ/kg]. -/
def hp2_h4 : ℚ := 650

/-- Stage two compressor inlet temperature T1 [K]. -/
def hp2_T1 : ℚ := 25 + 273.15

/-- Stage two condenser outlet temperature T3 [K]. -/
def hp2_T3 : ℚ := 85 + 273.15

/-- Stage two compressor inlet pressure p1 [Pa]. -/
def hp2_p1 : ℚ := 10 * 10 ^ 5

/-- Specific gas constant of R-717 [J/(kg·K)]. -/
def hp_R : ℚ := 488

/-- Electrical efficiency of the compressor (both stages). -/
def hp_eff : ℚ := 0.9

/-- Compressor speed [1/s] (both stages). -/
def hp_n : ℚ := 1500 / 60

/-- Number of compressor cylinders (both stages). -/
def hp_z : ℚ := 6

/-- The `ideal_cop` expression of stage one: `T3 / (T3 - T1)`. -/
def hp1_ideal_cop : ℚ := hp1_T3 / (hp1_T3 - hp1_T1)

/-- The `d` degradation expression of stage one: `A + B / ideal_cop` with
`A = 0.6932`, `B = -0.4851`. -/
def hp1_d : ℚ := 0.6932 + (-0.4851) / hp1_ideal_cop

/-- The `real_cop` expression of stage one: `ideal_cop * d`. -/
def hp1_real_cop : ℚ := hp1_ideal_cop * hp1_d

/-- The `ideal_cop` expression of stage two. -/
def hp2_ideal_cop : ℚ := hp2_T3 / (hp2_T3 - hp2_T1)

/-- The `d` degradation expression of stage two. -/
def hp2_d : ℚ := 0.6932 + (-0.4851) / hp2_ideal_cop

/-- The `real_cop` expression of stage two. -/
def hp2_real_cop : ℚ := hp2_ideal_cop * hp2_d

/-- Feasible set of `HeatpumpStageOne.heatpump_block_rule`.  The
`ideal_cop`, `d` and `real_cop` expressions are declared in the source but
occur in none of the constraints below. -/
def heatpumpStageOneFeasible (N : ℕ) (s : HeatpumpSol) : Prop :=
  ∀ t ∈ Finset.Icc 1 N,
    (s.bin t = 0 ∨ s.bin t = 1)
    ∧ 0 ≤ s.power t ∧ 0 ≤ s.heat_input t ∧ 0 ≤ s.heat t
    ∧ 0 ≤ s.capacity_compressor t ∧ 0 ≤ s.volume_flow t
    ∧ 0 ≤ s.massflow_refigerant t ∧ 0 ≤ s.swept_volume t
    ∧ s.heat t = s.capacity_compressor t + s.heat_input t
    ∧ s.capacity_compressor t = s.massflow_refigerant t * (hp1_h2 - hp1_h1) / 1000
    ∧ s.massflow_refigerant t = s.heat_input t * 1000 / (hp1_h1 - hp1_h4)
    ∧ s.volume_flow t = s.massflow_refigerant t * (hp_R * hp1_T1) / hp1_p1
    ∧ s.swept_volume t = s.volume_flow t / hp_n * hp_z
    ∧ s.power t = s.capacity_compressor t / hp_eff

/-- Feasible set of `HeatpumpStageTwo.heatpump_block_rule`, which adds the
`max_heat_input_rule` cap `heat_input ≤ 2.05` MW. -/
def heatpumpStageTwoFeasible (N : ℕ) (s : HeatpumpSol) : Prop :=
  ∀ t ∈ Finset.Icc 1 N,
    (s.bin t = 0 ∨ s.bin t = 1)
    ∧ 0 ≤ s.power t ∧ 0 ≤ s.heat_input t ∧ 0 ≤ s.heat t
    ∧ 0 ≤ s.capacity_compressor t ∧ 0 ≤ s.volume_flow t
    ∧ 0 ≤ s.massflow_refigerant t ∧ 0 ≤ s.swept_volume t
    ∧ s.heat t = s.capacity_compressor t + s.heat_input t
    ∧ s.capacity_compressor t = s.massflow_refigerant t * (hp2_h2 - hp2_h1) / 1000
    ∧ s.massflow_refigerant t = s.heat_input t * 1000 / (hp2_h1 - hp2_h4)
    ∧ s.volume_flow t = s.massflow_refigerant t * (hp_R * hp2_T1) / hp2_p1
    ∧ s.swept_volume t = s.volume_flow t / hp_n * hp_z
    ∧ s.power t = s.capacity_compressor t / hp_eff
    ∧ s.heat_input t ≤ 2.05

/-! ### Admixture validation (src/burn4h2/main.py, `Model.add_components`) -/

/-- The admissible hydrogen admixture values
(`ALLOWED_ADMIXTURE_VALUES = [0, 0.3, 0.5, 1.0]`). -/
def ALLOWED_ADMIXTURE_VALUES : List ℚ := [0, 0.3, 0.5, 1.0]

/-- The two configured admixture scalars of a scenario. -/
structure AdmixtureConfig where
  HYDROGEN_ADMIXTURE_CHP_1 : ℚ
  HYDROGEN_ADMIXTURE_CHP_2 : ℚ

/-- The CHP components whose construction follows the validation in
`add_components`. -/
structure BuiltChpComponents where
  chp_1_admixture : ℚ
  chp_2_admixture : ℚ

/-- Validation and component construction order of `Model.add_components`:
both admixture values are checked against `ALLOWED_ADMIXTURE_VALUES` and a
`ValueError` is raised before any block component is built; otherwise the
two CHP assets are constructed with the configured factors. -/
def add_components (cfg : AdmixtureConfig) : Except String BuiltChpComponents :=
  if cfg.HYDROGEN_ADMIXTURE_CHP_1 ∉ ALLOWED_ADMIXTURE_VALUES then
    Except.error "Invalid hydrogen_admixture value for CHP_1"
  else if cfg.HYDROGEN_ADMIXTURE_CHP_2 ∉ ALLOWED_ADMIXTURE_VALUES then
    Except.error "Invalid hydrogen_admixture value for CHP_2"
  else
    Except.ok
      { chp_1_admixture := cfg.HYDROGEN_ADMIXTURE_CHP_1
        chp_2_admixture := cfg.HYDROGEN_ADMIXTURE_CHP_2 }

/-! ### Stated solution properties -/

/-- The cycle-detection property of a battery built with
`cyclic_behaviour = c`: the switch binary is 1 exactly when the
charge/discharge state changed, the cyclic copy zeroes period boundaries,
every window sum is at most one, and hence at most one state transition is
counted per `c`-hour window. -/
def batteryCyclicProperty (c N : ℕ) (s : BatterySol) : Prop :=
  (∀ t ∈ Finset.Icc 2 N,
    (s.bin_switch t = 1 ↔
      s.bin_charge t - s.bin_discharge t ≠ s.bin_charge (t - 1) - s.bin_discharge (t - 1)))
  ∧ (∀ t ∈ Finset.Icc 1 N,
      ((t - 1) % c = 0 → s.cyclic_switch_bin t = 0)
      ∧ (¬ (t - 1) % c = 0 → s.cyclic_switch_bin t = s.bin_switch t))
  ∧ (∀ t ∈ Finset.Icc 1 N, t % c = 0 →
      ∑ j ∈ Finset.Icc (t - c + 1) t, s.cyclic_switch_bin j ≤ 1)
  ∧ (∀ t ∈ Finset.Icc 1 N, t % c = 0 →
      ((Finset.Icc (t - c + 1) t).filter fun j =>
        2 ≤ j ∧ ¬ (j - 1) % c = 0
          ∧ s.bin_charge j - s.bin_discharge j
            ≠ s.bin_charge (j - 1) - s.bin_discharge (j - 1)).card ≤ 1)

/-- The storage-content recurrences actually enforced by the five storage
blocks: the four buffer storages start from content `0 - net_flow(1)` (with
`net_flow` the `balance` variable, discharging minus charging) and evolve
without decay, while each layer of the stratified store pins its content at
`t = 1` to the declared initial capacity and decays with `k_loss = 0.0534`
afterwards. -/
def storageContentProperty (N : ℕ) (sb : BatterySol) (sh sht sg : SimpleStorageSol)
    (ss : StratifiedSol) : Prop :=
  (sb.power_content 1 = 0 - sb.power_balance 1
    ∧ ∀ t ∈ Finset.Icc 2 N,
        sb.power_content t = (1 - 0) * sb.power_content (t - 1)
          + (sb.power_charging t - sb.power_discharging t) * 1)
  ∧ (sh.content 1 = 0 - sh.balance 1
    ∧ ∀ t ∈ Finset.Icc 2 N,
        sh.content t = (1 - 0) * sh.content (t - 1) + (sh.charging t - sh.discharging t) * 1)
  ∧ (sht.content 1 = 0 - sht.balance 1
    ∧ ∀ t ∈ Finset.Icc 2 N,
        sht.content t = (1 - 0) * sht.content (t - 1) + (sht.charging t - sht.discharging t) * 1)
  ∧ (sg.content 1 = 0 - sg.balance 1
    ∧ ∀ t ∈ Finset.Icc 2 N,
        sg.content t = (1 - 0) * sg.content (t - 1) + (sg.charging t - sg.discharging t) * 1)
  ∧ (ss.U_S1 1 = init_capacity_S1 ∧ ss.U_S2 1 = init_capacity_S2
    ∧ ∀ t ∈ Finset.Icc 2 N,
        ss.U_S1 t = (1 - k_loss_S1) * ss.U_S1 (t - 1)
          + (ss.Q_dot_ST t - ss.Q_dot_S1_FW t - ss.Q_dot_S1_NW t) * strat_delta_t
        ∧ ss.U_S2 t = (1 - k_loss_S2) * ss.U_S2 (t - 1)
          + (ss.Q_dot_WP t - ss.Q_dot_S2_NW t) * strat_delta_t)

/-- The fixed proportional gains that the heat-pump constraint systems force
in every feasible solution, together with the fact that the gains are not
the `real_cop` surrogate values. -/
def heatpumpGainProperty (N M : ℕ) (s1 s2 : HeatpumpSol) : Prop :=
  (∀ t ∈ Finset.Icc 1 N,
    s1.heat t = s1.heat_input t * ((hp1_h2 - hp1_h4) / (hp1_h1 - hp1_h4))
    ∧ s1.heat t = 1230 / 1085 * s1.heat_input t
    ∧ s1.power t = s1.heat_input t * ((hp1_h2 - hp1_h1) / (hp_eff * (hp1_h1 - hp1_h4))))
  ∧ (∀ t ∈ Finset.Icc 1 M,
    s2.heat t = s2.heat_input t * ((hp2_h2 - hp2_h4) / (hp2_h1 - hp2_h4))
    ∧ s2.power t = s2.heat_input t * ((hp2_h2 - hp2_h1) / (hp_eff * (hp2_h1 - hp2_h4))))
  ∧ hp_eff = 0.9
  ∧ hp1_real_cop ≠ (hp1_h2 - hp1_h4) / (hp1_h1 - hp1_h4)
  ∧ hp2_real_cop ≠ (hp2_h2 - hp2_h4) / (hp2_h1 - hp2_h4)

/-! ### Concrete evaluation instances -/

/-- Parameter table of the buffer storages used in witnesses. -/
def simpleDataW : SimpleStorageData := { flow_max := 5, content_max := 10, content_min := 0 }

/-- Buffer storage solution that marks the charging mode but moves no
energy. -/
def simpleSolCharge : SimpleStorageSol :=
  { balance := fun _ => 0
    charging := fun _ => 0
    discharging := fun _ => 0
    content := fun _ => 0
    bin_charge := fun _ => 1
    bin_discharge := fun _ => 0 }

/-- Buffer storage solution that is idle: no flows and both mode binaries
zero. -/
def simpleSolIdle : SimpleStorageSol :=
  { balance := fun _ => 0
    charging := fun _ => 0
    discharging := fun _ => 0
    content := fun _ => 0
    bin_charge := fun _ => 0
    bin_discharge := fun _ => 0 }

/-- Geothermal storage solution that charges and discharges in the same
hour (both binaries set). -/
def geoSolBoth : SimpleStorageSol :=
  { balance := fun _ => 0
    charging := fun _ => 1
    discharging := fun _ => 1
    content := fun _ => 0
    bin_charge := fun _ => 1
    bin_discharge := fun _ => 1 }

/-- Battery parameter table used in witnesses. -/
def batteryDataW : BatteryData := { power_max := 5, capacity_max := 10, capacity_min := 0 }

/-- Battery solution that stays in charging mode every hour. -/
def batterySolW : BatterySol :=
  { power_balance := fun _ => 0
    power_charging := fun _ => 0
    power_discharging := fun _ => 0
    power_content := fun _ => 0
    bin_charge := fun _ => 1
    bin_discharge := fun _ => 0
    bin_switch := fun _ => 0
    aux_remainder := fun t => if t = 1 then 0 else 2
    aux_quotient := fun _ => 0
    cyclic_switch_bin := fun _ => 0 }

/-- Stratified storage solution with solar inflow 1 MW in every hour and
contents held at the initial capacities; feasible on the one-hour horizon. -/
def stratCexSol : StratifiedSol :=
  { Q_dot_ST := fun _ => 1
    Q_dot_WP := fun _ => 0
    Q_dot_S1_FW := fun _ => 0
    Q_dot_S1_NW := fun _ => 0
    Q_dot_S2_NW := fun _ => 0
    U_S1 := fun _ => 30
    U_S2 := fun _ => 20
    bin_S1_charge := fun _ => 0
    bin_S1_discharge := fun _ => 0
    bin_S2_charge := fun _ => 0
    bin_S2_discharge := fun _ => 0 }

/-- All-zero solution of the zone-based stratified store. -/
def stratZSolZero : StratifiedZSol :=
  { Q_ST := fun _ => 0
    Q_WP := fun _ => 0
    Q_Z1_FW := fun _ => 0
    Q_Z1_NW := fun _ => 0
    Q_Z2_NW := fun _ => 0
    U_Z1 := fun _ => 0
    U_Z2 := fun _ => 0 }

/-- All-zero heat pump solution. -/
def hpSolZero : HeatpumpSol :=
  { bin := fun _ => 0
    power := fun _ => 0
    heat_input := fun _ => 0
    heat := fun _ => 0
    capacity_compressor := fun _ => 0
    volume_flow := fun _ => 0
    massflow_refigerant := fun _ => 0
    swept_volume := fun _ => 0 }

/-! ### Helper lemmas -/

/-- The hydrogen energy density constant evaluates to 10.8 MJ/m³. -/
theorem rho_hv_h2 : RHO_H2 * HV_H2 = 10.8 := by
  norm_num [RHO_H2, HV_H2]

/-- The natural-gas energy density constant evaluates to 31.96 MJ/m³. -/
theorem rho_hv_ng : RHO_NG * HV_NG = 31.96 := by
  norm_num [RHO_NG, HV_NG]

/-- For admixture factors in (0, 1], the fuel-mix denominator is positive. -/
theorem mix_denom_pos (f : ℚ) (hf : 0 < f) (hf1 : f ≤ 1) :
    0 < f * (RHO_H2 * HV_H2) + (1 - f) * (RHO_NG * HV_NG) := by
  rw [rho_hv_h2, rho_hv_ng]
  nlinarith [hf, hf1]

/-- The two energy fractions of the fuel split sum to one. -/
theorem energy_fraction_sum (f : ℚ) (hf : 0 < f) (hf1 : f ≤ 1) :
    energy_fraction_h2 f + energy_fraction_ng f = 1 := by
  unfold energy_fraction_h2 energy_fraction_ng
  rw [div_add_div_same, div_self (mix_denom_pos f hf hf1).ne']

/-- Evaluating the chord at any `p` with the offset rewritten through the
lower end point: `a * p + b = q_min + a * (p - p_min)` when the power
envelope is nondegenerate. -/
theorem chord_point (qmax qmin pmax pmin p : ℚ) (h : pmin ≠ pmax) :
    chordSlope qmax qmin pmax pmin * p + chordOffset qmax qmin pmax pmin
      = qmin + chordSlope qmax qmin pmax pmin * (p - pmin) := by
  unfold chordOffset chordSlope
  have hne : pmax - pmin ≠ 0 := sub_ne_zero.mpr (Ne.symm h)
  field_simp
  ring

/-! ### Feasibility of the concrete evaluation instances -/

/-- The one-hour full-load CHP solution with `f = 1/2` is feasible. -/
theorem chpSolHalf_feasible : chpFeasible chpDataW (1 / 2) none 1 chpSolHalf := by
  refine ⟨?_, trivial⟩
  intro t ht
  simp only [chpSolHalf, chpDataW, chordSlope, chordOffset, energy_fraction_h2,
    energy_fraction_ng, RHO_H2, RHO_NG, HV_H2, HV_NG]
  norm_num

/-- The one-hour full-load CHP solution with `f = 0` is feasible. -/
theorem chpSolZero_feasible : chpFeasible chpDataW 0 none 1 chpSolZero := by
  refine ⟨?_, trivial⟩
  intro t ht
  simp only [chpSolZero, chpDataW, chordSlope, chordOffset]
  norm_num

/-- The always-charging battery solution is feasible for any horizon,
without the cyclic kwarg. -/
theorem batterySolW_feasible (N : ℕ) : batteryFeasible batteryDataW none N batterySolW := by
  refine ⟨?_, trivial⟩
  intro t ht
  by_cases h1 : t = 1 <;>
    simp [batterySolW, batteryDataW, switchState, h1]

/-- The always-charging battery solution is feasible for any horizon with
`cyclic_behaviour = c`. -/
theorem batterySolW_feasible_cyclic (c N : ℕ) :
    batteryFeasible batteryDataW (some c) N batterySolW := by
  refine ⟨(batterySolW_feasible N).1, ?_⟩
  intro t ht
  refine ⟨Or.inl rfl, fun _ => rfl, fun _ => rfl, fun _ => ?_⟩
  simp [batterySolW]

/-- The charging-marked idle buffer solution satisfies the shared storage
core for any horizon. -/
theorem simpleSolCharge_core (N : ℕ) : simpleStorageCore simpleDataW N simpleSolCharge := by
  intro t ht
  simp [simpleSolCharge, simpleDataW]

/-- The charging-marked idle buffer solution is feasible for the hydrogen
storage. -/
theorem simpleSolCharge_hydrogen (N : ℕ) :
    hydrogenStorageFeasible simpleDataW N simpleSolCharge :=
  ⟨simpleSolCharge_core N, fun t _ => by simp [simpleSolCharge]⟩

/-- The charging-marked idle buffer solution is feasible for the heat
storage. -/
theorem simpleSolCharge_heat (N : ℕ) :
    heatStorageFeasible simpleDataW N simpleSolCharge :=
  ⟨simpleSolCharge_core N, fun t _ => by simp [simpleSolCharge]⟩

/-- The solution that charges and discharges simultaneously is feasible for
the geothermal storage, whose exclusivity constraint is commented out. -/
theorem geoSolBoth_feasible (N : ℕ) : geoHeatStorageFeasible simpleDataW N geoSolBoth := by
  intro t ht
  simp [geoSolBoth, simpleDataW]

/-- The stratified storage counterexample solution is feasible on the
one-hour horizon. -/
theorem stratCexSol_feasible : stratifiedFeasible 1 stratCexSol := by
  intro t ht
  rw [Finset.mem_Icc] at ht
  have h1 : t = 1 := by omega
  subst h1
  simp only [stratCexSol, init_capacity_S1, init_capacity_S2, max_heat_flow,
    energy_density_S1, energy_density_S2, water_density, spec_heat_capacity,
    delta_T_S1, delta_T_S2, max_total_volume, k_loss_S1, k_loss_S2, strat_delta_t]
  norm_num

/-- The all-zero zone-based stratified solution is feasible for every
horizon, with or without the seasonal restriction. -/
theorem stratZSolZero_feasible (b : Bool) (N : ℕ) :
    stratifiedZFeasible b 0 N stratZSolZero := by
  intro t ht
  simp [stratZSolZero, k_loss_Z, energy_density_Z1, energy_density_Z2, V_max_Z]

/-- The all-zero heat pump solution is feasible for stage one. -/
theorem hpSolZero_stage_one (N : ℕ) : heatpumpStageOneFeasible N hpSolZero := by
  intro t ht
  simp [hpSolZero]

/-- The all-zero heat pump solution is feasible for stage two. -/
theorem hpSolZero_stage_two (N : ℕ) : heatpumpStageTwoFeasible N hpSolZero := by
  intro t ht
  simp [hpSolZero]
  norm_num

/-! ### Claim theorems -/

/-- C1: for every CHP asset built with hydrogen admixture factor `f > 0` and
every hour of every feasible solution, `hydrogen(t) + natural_gas(t) =
gas(t)` and `hydrogen(t) = gas(t) * φ_H2(f)` with the energy-weighted share
`φ_H2(f) = (f · 10.8) / (f · 10.8 + (1 - f) · 31.96)` derived from
`e_H2 = 0.09 · 120.0` and `e_NG = 0.68 · 47.0` MJ/m³. -/
theorem C1_energy_weighted_admixture (d : ChpData) (f : ℚ) (forced : Option ℕ)
    (N : ℕ) (s : ChpSol) (hfeas : chpFeasible d f forced N s)
    (hf : 0 < f) (hf1 : f ≤ 1) :
    ∀ t ∈ Finset.Icc 1 N,
      s.hydrogen t + s.natural_gas t = s.gas t
      ∧ s.hydrogen t = s.gas t * ((f * 10.8) / (f * 10.8 + (1 - f) * 31.96)) := by
  intro t ht
  obtain ⟨hall, -⟩ := hfeas
  obtain ⟨-, -, -, -, -, -, -, -, -, -, -, -, hpos, -⟩ := hall t ht
  obtain ⟨-, -, hhyd, hng⟩ := hpos hf
  refine ⟨?_, ?_⟩
  · rw [hhyd, hng, ← mul_add, energy_fraction_sum f hf hf1, mul_one]
  · rw [hhyd]
    unfold energy_fraction_h2
    rw [rho_hv_h2, rho_hv_ng]

/-- Witness for C1: evaluation at a one-hour full-load solution with
`f = 1/2`. -/
theorem C1_energy_weighted_admixture_witness :
    chpFeasible chpDataW (1 / 2) none 1 chpSolHalf
      ∧ ∀ t ∈ Finset.Icc 1 1,
          chpSolHalf.hydrogen t + chpSolHalf.natural_gas t = chpSolHalf.gas t
          ∧ chpSolHalf.hydrogen t
            = chpSolHalf.gas t * ((1 / 2 * 10.8) / (1 / 2 * 10.8 + (1 - 1 / 2) * 31.96)) :=
  ⟨chpSolHalf_feasible,
    C1_energy_weighted_admixture chpDataW (1 / 2) none 1 chpSolHalf
      chpSolHalf_feasible (by norm_num) (by norm_num)⟩

/-- C2: for every CHP asset built with admixture factor 0, each internal
quantity `q ∈ {gas, heat, co2, waste_heat}` satisfies the chord coupling
`q(t) = a_q · power(t) + b_q · bin(t)`, the commitment bounds hold, and
hence `bin = 0` forces all quantities to zero while `bin = 1` places
`(power, q)` exactly on the chord through `(power_min, q_min)` and
`(power_max, q_max)`. -/
theorem C2_chp_chord_coupling (d : ChpData) (forced : Option ℕ) (N : ℕ) (s : ChpSol)
    (hfeas : chpFeasible d 0 forced N s) (hp : d.power_min < d.power_max) :
    ∀ t ∈ Finset.Icc 1 N,
      (s.gas t = chordSlope d.gas_max d.gas_min d.power_max d.power_min * s.power t
          + chordOffset d.gas_max d.gas_min d.power_max d.power_min * s.bin t
        ∧ s.heat t = chordSlope d.heat_max d.heat_min d.power_max d.power_min * s.power t
          + chordOffset d.heat_max d.heat_min d.power_max d.power_min * s.bin t
        ∧ s.co2 t = chordSlope d.co2_max d.co2_min d.power_max d.power_min * s.power t
          + chordOffset d.co2_max d.co2_min d.power_max d.power_min * s.bin t
        ∧ s.waste_heat t =
            chordSlope d.waste_heat_max d.waste_heat_min d.power_max d.power_min * s.power t
          + chordOffset d.waste_heat_max d.waste_heat_min d.power_max d.power_min * s.bin t)
      ∧ (d.power_min * s.bin t ≤ s.power t ∧ s.power t ≤ d.power_max * s.bin t)
      ∧ (s.bin t = 0 →
          s.power t = 0 ∧ s.gas t = 0 ∧ s.heat t = 0 ∧ s.co2 t = 0 ∧ s.waste_heat t = 0)
      ∧ (s.bin t = 1 →
          s.gas t = d.gas_min
            + chordSlope d.gas_max d.gas_min d.power_max d.power_min * (s.power t - d.power_min)
          ∧ s.heat t = d.heat_min
            + chordSlope d.heat_max d.heat_min d.power_max d.power_min * (s.power t - d.power_min)
          ∧ s.co2 t = d.co2_min
            + chordSlope d.co2_max d.co2_min d.power_max d.power_min * (s.power t - d.power_min)
          ∧ s.waste_heat t = d.waste_heat_min
            + chordSlope d.waste_heat_max d.waste_heat_min d.power_max d.power_min
                * (s.power t - d.power_min)) := by
  intro t ht
  obtain ⟨hall, -⟩ := hfeas
  obtain ⟨-, -, hpow0, -, -, -, -, hpmaxb, hpminb, hgas, hheat, hwaste, -, hneg⟩ := hall t ht
  have hco2 := hneg (by norm_num)
  have hne : d.power_min ≠ d.power_max := ne_of_lt hp
  refine ⟨⟨hgas, hheat, hco2, hwaste⟩, ⟨hpminb, hpmaxb⟩, ?_, ?_⟩
  · intro hb0
    have hpz : s.power t = 0 := by
      rw [hb0, mul_zero] at hpmaxb
      exact le_antisymm hpmaxb hpow0
    exact ⟨hpz, by rw [hgas, hb0, hpz]; ring, by rw [hheat, hb0, hpz]; ring,
      by rw [hco2, hb0, hpz]; ring, by rw [hwaste, hb0, hpz]; ring⟩
  · intro hb1
    refine ⟨?_, ?_, ?_, ?_⟩
    · rw [hgas, hb1, mul_one]; exact chord_point _ _ _ _ _ hne
    · rw [hheat, hb1, mul_one]; exact chord_point _ _ _ _ _ hne
    · rw [hco2, hb1, mul_one]; exact chord_point _ _ _ _ _ hne
    · rw [hwaste, hb1, mul_one]; exact chord_point _ _ _ _ _ hne

/-- Witness for C2: evaluation at a one-hour full-load solution with
`f = 0`. -/
theorem C2_chp_chord_coupling_witness :
    chpFeasible chpDataW 0 none 1 chpSolZero
      ∧ chpDataW.power_min < chpDataW.power_max
      ∧ ∀ t ∈ Finset.Icc 1 1,
          (chpSolZero.gas t =
              chordSlope chpDataW.gas_max chpDataW.gas_min chpDataW.power_max chpDataW.power_min
                  * chpSolZero.power t
                + chordOffset chpDataW.gas_max chpDataW.gas_min chpDataW.power_max
                    chpDataW.power_min * chpSolZero.bin t
            ∧ chpSolZero.heat t =
              chordSlope chpDataW.heat_max chpDataW.heat_min chpDataW.power_max chpDataW.power_min
                  * chpSolZero.power t
                + chordOffset chpDataW.heat_max chpDataW.heat_min chpDataW.power_max
                    chpDataW.power_min * chpSolZero.bin t
            ∧ chpSolZero.co2 t =
              chordSlope chpDataW.co2_max chpDataW.co2_min chpDataW.power_max chpDataW.power_min
                  * chpSolZero.power t
                + chordOffset chpDataW.co2_max chpDataW.co2_min chpDataW.power_max
                    chpDataW.power_min * chpSolZero.bin t
            ∧ chpSolZero.waste_heat t =
              chordSlope chpDataW.waste_heat_max chpDataW.waste_heat_min chpDataW.power_max
                  chpDataW.power_min * chpSolZero.power t
                + chordOffset chpDataW.waste_heat_max chpDataW.waste_heat_min chpDataW.power_max
                    chpDataW.power_min * chpSolZero.bin t)
          ∧ (chpDataW.power_min * chpSolZero.bin t ≤ chpSolZero.power t
            ∧ chpSolZero.power t ≤ chpDataW.power_max * chpSolZero.bin t)
          ∧ (chpSolZero.bin t = 0 →
              chpSolZero.power t = 0 ∧ chpSolZero.gas t = 0 ∧ chpSolZero.heat t = 0
                ∧ chpSolZero.co2 t = 0 ∧ chpSolZero.waste_heat t = 0)
          ∧ (chpSolZero.bin t = 1 →
              chpSolZero.gas t = chpDataW.gas_min
                + chordSlope chpDataW.gas_max chpDataW.gas_min chpDataW.power_max
                    chpDataW.power_min * (chpSolZero.power t - chpDataW.power_min)
              ∧ chpSolZero.heat t = chpDataW.heat_min
                + chordSlope chpDataW.heat_max chpDataW.heat_min chpDataW.power_max
                    chpDataW.power_min * (chpSolZero.power t - chpDataW.power_min)
              ∧ chpSolZero.co2 t = chpDataW.co2_min
                + chordSlope chpDataW.co2_max chpDataW.co2_min chpDataW.power_max
                    chpDataW.power_min * (chpSolZero.power t - chpDataW.power_min)
              ∧ chpSolZero.waste_heat t = chpDataW.waste_heat_min
                + chordSlope chpDataW.waste_heat_max chpDataW.waste_heat_min chpDataW.power_max
                    chpDataW.power_min * (chpSolZero.power t - chpDataW.power_min)) :=
  ⟨chpSolZero_feasible, by norm_num [chpDataW],
    C2_chp_chord_coupling chpDataW none 1 chpSolZero chpSolZero_feasible
      (by norm_num [chpDataW])⟩

/-- C3: the model objective equals the per-hour sum of gas, CO₂, power and
hydrogen costs minus the heat revenue, with the hydrogen cost priced at the
scalar `H2_PRICE` exactly when `USE_CONST_H2_PRICE` is set and at the
time-varying `hydrogen_price(t)` otherwise, and the objective sense is
minimization. -/
theorem C3_objective_decomposition (N : ℕ) (p : ObjPrices) (v : ObjVars) :
    obj_expression N p v =
      (∑ t ∈ Finset.Icc 1 N,
        (p.gas_price t * v.ngas_supply t
          + p.CO2_PRICE * (v.chp1_co2 t + v.chp2_co2 t)
          + p.power_price t * v.power_balance t
          + (if p.USE_CONST_H2_PRICE ≠ 0 then p.H2_PRICE else p.hydrogen_price t)
              * v.hydrogen_supply t
          - p.HEAT_PRICE * v.heat_feedin t))
      ∧ objective_sense = ObjSense.minimize := by
  refine ⟨?_, rfl⟩
  unfold obj_expression hydrogen_cost
  by_cases hc : p.USE_CONST_H2_PRICE ≠ 0
  · simp only [if_pos hc]
    rw [← Finset.sum_add_distrib, ← Finset.sum_add_distrib, ← Finset.sum_add_distrib,
      ← Finset.sum_add_distrib, ← Finset.sum_sub_distrib]
    exact Finset.sum_congr rfl fun t _ => by ring
  · simp only [if_neg hc]
    rw [← Finset.sum_add_distrib, ← Finset.sum_add_distrib, ← Finset.sum_add_distrib,
      ← Finset.sum_add_distrib, ← Finset.sum_sub_distrib]
    exact Finset.sum_congr rfl fun t _ => by ring

/-- C9: building a model from a configuration succeeds exactly when both
hydrogen admixture values lie in `{0, 0.3, 0.5, 1.0}`; any other value
fails with the invalid-admixture error before the components are built. -/
theorem C9_admixture_validation (cfg : AdmixtureConfig) :
    ((∃ b, add_components cfg = Except.ok b)
        ↔ cfg.HYDROGEN_ADMIXTURE_CHP_1 ∈ ALLOWED_ADMIXTURE_VALUES
          ∧ cfg.HYDROGEN_ADMIXTURE_CHP_2 ∈ ALLOWED_ADMIXTURE_VALUES)
      ∧ (cfg.HYDROGEN_ADMIXTURE_CHP_1 ∉ ALLOWED_ADMIXTURE_VALUES →
          add_components cfg = Except.error "Invalid hydrogen_admixture value for CHP_1")
      ∧ (cfg.HYDROGEN_ADMIXTURE_CHP_1 ∈ ALLOWED_ADMIXTURE_VALUES →
          cfg.HYDROGEN_ADMIXTURE_CHP_2 ∉ ALLOWED_ADMIXTURE_VALUES →
          add_components cfg = Except.error "Invalid hydrogen_admixture value for CHP_2") := by
  unfold add_components
  split_ifs with h1 h2 <;> simp_all

/-- Witness for C9: evaluation of the validation at the admixture pair
`(0.3, 1.0)`. -/
theorem C9_admixture_validation_witness :
    ((∃ b, add_components { HYDROGEN_ADMIXTURE_CHP_1 := 0.3, HYDROGEN_ADMIXTURE_CHP_2 := 1.0 }
          = Except.ok b)
        ↔ (0.3 : ℚ) ∈ ALLOWED_ADMIXTURE_VALUES ∧ (1.0 : ℚ) ∈ ALLOWED_ADMIXTURE_VALUES)
      ∧ ((0.3 : ℚ) ∉ ALLOWED_ADMIXTURE_VALUES →
          add_components { HYDROGEN_ADMIXTURE_CHP_1 := 0.3, HYDROGEN_ADMIXTURE_CHP_2 := 1.0 }
            = Except.error "Invalid hydrogen_admixture value for CHP_1")
      ∧ ((0.3 : ℚ) ∈ ALLOWED_ADMIXTURE_VALUES → (1.0 : ℚ) ∉ ALLOWED_ADMIXTURE_VALUES →
          add_components { HYDROGEN_ADMIXTURE_CHP_1 := 0.3, HYDROGEN_ADMIXTURE_CHP_2 := 1.0 }
            = Except.error "Invalid hydrogen_admixture value for CHP_2") :=
  C9_admixture_validation { HYDROGEN_ADMIXTURE_CHP_1 := 0.3, HYDROGEN_ADMIXTURE_CHP_2 := 1.0 }

/-- Content recurrence facts shared by the three buffer storage classes. -/
theorem simple_storage_content (d : SimpleStorageData) (N : ℕ) (s : SimpleStorageSol)
    (hcore : simpleStorageCore d N s) (hN : 1 ≤ N) :
    s.content 1 = 0 - s.balance 1
      ∧ ∀ t ∈ Finset.Icc 2 N,
          s.content t = (1 - 0) * s.content (t - 1) + (s.charging t - s.discharging t) * 1 := by
  constructor
  · have h1 := hcore 1 (by rw [Finset.mem_Icc]; omega)
    exact h1.2.2.2.2.2.2.2.2.2.2.1 rfl
  · intro t ht
    rw [Finset.mem_Icc] at ht
    have h := hcore t (by rw [Finset.mem_Icc]; omega)
    have hrec := h.2.2.2.2.2.2.2.2.2.2.2 (by omega)
    have hbal := h.2.2.2.2.2.2.2.1
    rw [hrec, hbal]
    ring

/-- C4 counterexample: a feasible one-hour solution of the stratified store
with 1 MW of solar inflow in hour 1 whose layer-S1 content at `t = 1` is the
declared initial capacity, not `initial - net_flow(1)` — under either
orientation of `net_flow` (outflow minus inflow, as the storage `balance`
variables, or inflow minus outflow). -/
theorem C4_storage_content_counterexample :
    stratifiedFeasible 1 stratCexSol
      ∧ stratCexSol.U_S1 1
        ≠ init_capacity_S1
          - (stratCexSol.Q_dot_S1_FW 1 + stratCexSol.Q_dot_S1_NW 1 - stratCexSol.Q_dot_ST 1)
      ∧ stratCexSol.U_S1 1
        ≠ init_capacity_S1
          - (stratCexSol.Q_dot_ST 1 - stratCexSol.Q_dot_S1_FW 1 - stratCexSol.Q_dot_S1_NW 1) := by
  refine ⟨stratCexSol_feasible, ?_, ?_⟩ <;>
    · simp only [stratCexSol, init_capacity_S1]
      norm_num

/-- C4 amended: the four buffer storages (battery, hydrogen, heat,
geothermal) start from `content(1) = 0 - balance(1)` and evolve by the
lossless recurrence, while each layer of the stratified store pins its
content at `t = 1` to its declared initial capacity (30 resp. 20 MWh) with
no flow term, and decays with `k_loss = 0.0534` for `t > 1`. -/
theorem C4_storage_content_amended (bd : BatteryData) (copt : Option ℕ)
    (hd htd gd : SimpleStorageData) (N : ℕ) (sb : BatterySol)
    (sh sht sg : SimpleStorageSol) (ss : StratifiedSol) (hN : 1 ≤ N)
    (hb : batteryFeasible bd copt N sb)
    (hh : hydrogenStorageFeasible hd N sh)
    (hht : heatStorageFeasible htd N sht)
    (hg : geoHeatStorageFeasible gd N sg)
    (hs : stratifiedFeasible N ss) :
    storageContentProperty N sb sh sht sg ss := by
  refine ⟨?_, simple_storage_content hd N sh hh.1 hN,
    simple_storage_content htd N sht hht.1 hN,
    simple_storage_content gd N sg hg hN, ?_⟩
  · constructor
    · have h1 := hb.1 1 (by rw [Finset.mem_Icc]; omega)
      exact h1.2.2.2.2.2.2.2.2.2.2.2.2.2.2.1 rfl
    · intro t ht
      rw [Finset.mem_Icc] at ht
      have h := hb.1 t (by rw [Finset.mem_Icc]; omega)
      have hrec := h.2.2.2.2.2.2.2.2.2.2.2.2.2.2.2.1 (by omega)
      have hbal := h.2.2.2.2.2.2.2.2.2.2.1
      rw [hrec, hbal]
      ring
  · have h1 := hs 1 (by rw [Finset.mem_Icc]; omega)
    refine ⟨h1.2.2.2.2.2.2.2.2.2.2.2.2.2.1 rfl,
      h1.2.2.2.2.2.2.2.2.2.2.2.2.2.2.2.1 rfl, ?_⟩
    intro t ht
    rw [Finset.mem_Icc] at ht
    have h := hs t (by rw [Finset.mem_Icc]; omega)
    exact ⟨h.2.2.2.2.2.2.2.2.2.2.2.2.2.2.1 (by omega),
      h.2.2.2.2.2.2.2.2.2.2.2.2.2.2.2.2.1 (by omega)⟩

/-- Witness for C4 amended: evaluation on the one-hour horizon with the
concrete feasible storage solutions. -/
theorem C4_storage_content_amended_witness :
    batteryFeasible batteryDataW none 1 batterySolW
      ∧ hydrogenStorageFeasible simpleDataW 1 simpleSolCharge
      ∧ heatStorageFeasible simpleDataW 1 simpleSolCharge
      ∧ geoHeatStorageFeasible simpleDataW 1 geoSolBoth
      ∧ stratifiedFeasible 1 stratCexSol
      ∧ storageContentProperty 1 batterySolW simpleSolCharge simpleSolCharge
          geoSolBoth stratCexSol :=
  ⟨batterySolW_feasible 1, simpleSolCharge_hydrogen 1, simpleSolCharge_heat 1,
    geoSolBoth_feasible 1, stratCexSol_feasible,
    C4_storage_content_amended batteryDataW none simpleDataW simpleDataW simpleDataW 1
      batterySolW simpleSolCharge simpleSolCharge geoSolBoth stratCexSol (by norm_num)
      (batterySolW_feasible 1) (simpleSolCharge_hydrogen 1) (simpleSolCharge_heat 1)
      (geoSolBoth_feasible 1) stratCexSol_feasible⟩

/-- C5: with the seasonal discharge restriction enabled, the zone-based
stratified store discharges nothing from zone 1 to the district-heat grid
in any winter-set hour, for each of the three supported horizon lengths. -/
theorem C5_seasonal_discharge_restriction (hm : ℚ) (N : ℕ) (s : StratifiedZSol)
    (hfeas : stratifiedZFeasible true hm N s) :
    ∀ t ∈ Finset.Icc 1 N,
      ((N = 8760 ∧ (t ≤ 2878 ∨ 7295 ≤ t))
        ∨ (N = 8784 ∧ (t ≤ 2902 ∨ 7319 ≤ t))
        ∨ (N = 168 ∧ t ≤ 13)) →
      s.Q_Z1_FW t = 0 := by
  intro t ht hcase
  have hmem := Finset.mem_Icc.mp ht
  have h := hfeas t ht
  apply h.2.2.2.2.2.2.2.2.2.2.2.2.2.2 rfl
  rcases hcase with ⟨hN, hr⟩ | ⟨hN, hr⟩ | ⟨hN, hr⟩ <;> subst hN <;>
    rw [winter_hours] <;> norm_num [Finset.mem_union, Finset.mem_Icc] <;> omega

/-- Witness for C5: evaluation at the all-zero solution on the 168-hour
dummy horizon. -/
theorem C5_seasonal_discharge_restriction_witness :
    stratifiedZFeasible true 0 168 stratZSolZero
      ∧ ∀ t ∈ Finset.Icc 1 168,
          ((168 = 8760 ∧ (t ≤ 2878 ∨ 7295 ≤ t))
            ∨ (168 = 8784 ∧ (t ≤ 2902 ∨ 7319 ≤ t))
            ∨ (168 = 168 ∧ t ≤ 13)) →
          stratZSolZero.Q_Z1_FW t = 0 :=
  ⟨stratZSolZero_feasible true 168,
    C5_seasonal_discharge_restriction 0 168 stratZSolZero (stratZSolZero_feasible true 168)⟩

/-- C6: every feasible solution of the zone-based stratified store keeps the
combined physical volume `U_Z1/e_Z1 + U_Z2/e_Z2` below `V_max = 2000 m³`,
with the energy densities `e_Zi = 1000 · (4.1868/1000) · ΔT_Zi / 3600` for
`ΔT_Z1 = 38 K` and `ΔT_Z2 = 23 K`. -/
theorem C6_stratified_volume_coupling (seasonal : Bool) (hm : ℚ) (N : ℕ)
    (s : StratifiedZSol) (hfeas : stratifiedZFeasible seasonal hm N s) :
    ∀ t ∈ Finset.Icc 1 N,
      s.U_Z1 t / (1000 * (4.1868 / 1000) * 38 / 3600)
        + s.U_Z2 t / (1000 * (4.1868 / 1000) * 23 / 3600) ≤ 2000 := by
  intro t ht
  have h := (hfeas t ht).2.2.2.2.2.2.2.2.2.2.2.2.2.1
  simpa only [energy_density_Z1, energy_density_Z2, delta_T_Z1, delta_T_Z2, V_max_Z] using h

/-- Witness for C6: evaluation at the all-zero solution on a one-hour
horizon. -/
theorem C6_stratified_volume_coupling_witness :
    stratifiedZFeasible false 0 1 stratZSolZero
      ∧ ∀ t ∈ Finset.Icc 1 1,
          stratZSolZero.U_Z1 t / (1000 * (4.1868 / 1000) * 38 / 3600)
            + stratZSolZero.U_Z2 t / (1000 * (4.1868 / 1000) * 23 / 3600) ≤ 2000 :=
  ⟨stratZSolZero_feasible false 1,
    C6_stratified_volume_coupling false 0 1 stratZSolZero (stratZSolZero_feasible false 1)⟩

/-- In every feasible battery solution and at every hour `t ≥ 2`, the
switch binary is 1 exactly when `switch_state ≠ 0`: the paired inequalities
force `bin_switch = 1` on a transition, and the modulo identity together
with `aux_remainder * bin_switch = 0` forces `bin_switch = 0` otherwise. -/
theorem battery_switch_forced (d : BatteryData) (copt : Option ℕ) (N : ℕ)
    (s : BatterySol) (hfeas : batteryFeasible d copt N s) (t : ℕ)
    (ht : t ∈ Finset.Icc 2 N) : s.bin_switch t = 1 ↔ switchState s t ≠ 0 := by
  rw [Finset.mem_Icc] at ht
  have ht1 : t ≠ 1 := by omega
  obtain ⟨-, -, -, -, -, hbs, hr0, hr3, -, -, -, -, -, -, -, -, -, hge, hle, hmul, -, hmod⟩ :=
    hfeas.1 t (by rw [Finset.mem_Icc]; omega)
  constructor
  · intro hbs1 h0
    have hmod2 := hmod ht1
    rw [h0, zero_add] at hmod2
    have hqr : 4 * s.aux_quotient t + s.aux_remainder t = 2 := by exact_mod_cast hmod2.symm
    have hr2 : s.aux_remainder t = 2 := by omega
    have hz := hmul ht1
    rw [hr2, hbs1, mul_one] at hz
    norm_num at hz
  · intro hne
    rcases hbs with h0 | h1
    · exfalso
      apply hne
      have hge2 := hge ht1
      have hle2 := hle ht1
      rw [h0] at hge2 hle2
      linarith
    · exact h1

/-- C7: with `cyclic_behaviour = c`, the battery constraint system forces
`bin_switch(t) = 1` exactly on charge/discharge transitions, zeroes the
cyclic copy at window boundaries, bounds every window sum of
`cyclic_switch_bin` by one at hours divisible by `c`, and hence admits at
most one counted transition per `c`-hour window. -/
theorem C7_battery_cyclic_switch (d : BatteryData) (c N : ℕ) (s : BatterySol)
    (hfeas : batteryFeasible d (some c) N s) (hc : 0 < c) :
    batteryCyclicProperty c N s := by
  obtain ⟨hbase, hcyc⟩ := hfeas
  refine ⟨?_, ?_, ?_, ?_⟩
  · intro t ht
    rw [battery_switch_forced d (some c) N s ⟨hbase, hcyc⟩ t ht]
    unfold switchState
    constructor
    · intro h
      exact fun he => h (by rw [he]; ring)
    · intro h
      exact fun he => h (by linarith [sub_eq_zero.mp he])
  · intro t ht
    exact ⟨(hcyc t ht).2.1, (hcyc t ht).2.2.1⟩
  · intro t ht hdvd
    exact (hcyc t ht).2.2.2 hdvd
  · intro t ht hdvd
    rw [Finset.mem_Icc] at ht
    set W := Finset.Icc (t - c + 1) t with hW
    set F := W.filter (fun j =>
      2 ≤ j ∧ ¬ (j - 1) % c = 0
        ∧ s.bin_charge j - s.bin_discharge j
          ≠ s.bin_charge (j - 1) - s.bin_discharge (j - 1)) with hF
    have hWsub : ∀ j ∈ W, j ∈ Finset.Icc 1 N := by
      intro j hj
      rw [hW, Finset.mem_Icc] at hj
      rw [Finset.mem_Icc]
      omega
    have hone : ∀ j ∈ F, s.cyclic_switch_bin j = 1 := by
      intro j hj
      rw [hF, Finset.mem_filter] at hj
      obtain ⟨hjW, hj2, hjb, hjsw⟩ := hj
      have hjN : j ∈ Finset.Icc 1 N := hWsub j hjW
      have hcopy := (hcyc j hjN).2.2.1 hjb
      rw [hcopy]
      have hj2N : j ∈ Finset.Icc 2 N := by
        rw [Finset.mem_Icc] at hjN ⊢
        omega
      rw [battery_switch_forced d (some c) N s ⟨hbase, hcyc⟩ j hj2N]
      unfold switchState
      exact fun he => hjsw (by linarith [sub_eq_zero.mp he])
    have hnn : ∀ j ∈ W, 0 ≤ s.cyclic_switch_bin j := by
      intro j hj
      rcases (hcyc j (hWsub j hj)).1 with h0 | h1
      · rw [h0]
      · rw [h1]; norm_num
    have hwin := (hcyc t (by rw [Finset.mem_Icc]; omega)).2.2.2 hdvd
    have hcardq : ((F.card : ℚ)) ≤ 1 := by
      calc (F.card : ℚ) = ∑ _j ∈ F, (1 : ℚ) := by
            rw [Finset.sum_const, nsmul_eq_mul, mul_one]
        _ = ∑ j ∈ F, s.cyclic_switch_bin j :=
            (Finset.sum_congr rfl fun j hj => (hone j hj).symm)
        _ ≤ ∑ j ∈ W, s.cyclic_switch_bin j :=
            Finset.sum_le_sum_of_subset_of_nonneg (Finset.filter_subset _ _)
              (fun j hj _ => hnn j hj)
        _ ≤ 1 := hwin
    exact_mod_cast hcardq

/-- Witness for C7: evaluation at the always-charging battery over a
two-hour horizon with `cyclic_behaviour = 2`. -/
theorem C7_battery_cyclic_switch_witness :
    batteryFeasible batteryDataW (some 2) 2 batterySolW
      ∧ 0 < 2
      ∧ batteryCyclicProperty 2 2 batterySolW :=
  ⟨batterySolW_feasible_cyclic 2 2, by norm_num,
    C7_battery_cyclic_switch batteryDataW 2 2 batterySolW
      (batterySolW_feasible_cyclic 2 2) (by norm_num)⟩

/-- C8 counterexample: the idle assignment (no flows, both mode binaries
zero) satisfies the spec-described heat storage with `bin_charge +
bin_discharge ≤ 1`, but violates the source's heat storage, whose
`binary_rule` is the equality `bin_charge + bin_discharge == 1`. -/
theorem C8_binary_exclusivity_counterexample :
    heatStorageSpecIdleFeasible simpleDataW 1 simpleSolIdle
      ∧ ¬ heatStorageFeasible simpleDataW 1 simpleSolIdle := by
  constructor
  · refine ⟨?_, ?_⟩
    · intro t ht
      simp [simpleSolIdle, simpleDataW]
    · intro t ht
      simp [simpleSolIdle]
  · intro h
    have h1 := h.2 1 (by rw [Finset.mem_Icc]; omega)
    simp [simpleSolIdle] at h1

/-- C8 amended: the battery, hydrogen and heat storages all enforce the
equality `bin_charge(t) + bin_discharge(t) = 1` (forcing a mode every
hour), while the geothermal storage enforces no exclusivity at all — its
binary constraint is commented out, so even simultaneous charging and
discharging is feasible. -/
theorem C8_binary_exclusivity_amended (bd : BatteryData) (copt : Option ℕ)
    (hd htd : SimpleStorageData) (N : ℕ) (sb : BatterySol) (sh sht : SimpleStorageSol)
    (hb : batteryFeasible bd copt N sb)
    (hh : hydrogenStorageFeasible hd N sh)
    (hht : heatStorageFeasible htd N sht) :
    (∀ t ∈ Finset.Icc 1 N, sb.bin_charge t + sb.bin_discharge t = 1)
      ∧ (∀ t ∈ Finset.Icc 1 N, sh.bin_charge t + sh.bin_discharge t = 1)
      ∧ (∀ t ∈ Finset.Icc 1 N, sht.bin_charge t + sht.bin_discharge t = 1)
      ∧ (geoHeatStorageFeasible simpleDataW 1 geoSolBoth
          ∧ geoSolBoth.bin_charge 1 = 1 ∧ geoSolBoth.bin_discharge 1 = 1) := by
  refine ⟨?_, hh.2, hht.2, geoSolBoth_feasible 1, rfl, rfl⟩
  intro t ht
  exact ((hb.1 t ht).2.2.2.2.2.2.2.2.2.2.2.1)

/-- Witness for C8 amended: evaluation on the one-hour horizon with the
concrete feasible storage solutions. -/
theorem C8_binary_exclusivity_amended_witness :
    batteryFeasible batteryDataW none 1 batterySolW
      ∧ hydrogenStorageFeasible simpleDataW 1 simpleSolCharge
      ∧ heatStorageFeasible simpleDataW 1 simpleSolCharge
      ∧ ((∀ t ∈ Finset.Icc 1 1, batterySolW.bin_charge t + batterySolW.bin_discharge t = 1)
        ∧ (∀ t ∈ Finset.Icc 1 1,
            simpleSolCharge.bin_charge t + simpleSolCharge.bin_discharge t = 1)
        ∧ (∀ t ∈ Finset.Icc 1 1,
            simpleSolCharge.bin_charge t + simpleSolCharge.bin_discharge t = 1)
        ∧ (geoHeatStorageFeasible simpleDataW 1 geoSolBoth
            ∧ geoSolBoth.bin_charge 1 = 1 ∧ geoSolBoth.bin_discharge 1 = 1)) :=
  ⟨batterySolW_feasible 1, simpleSolCharge_hydrogen 1, simpleSolCharge_heat 1,
    C8_binary_exclusivity_amended batteryDataW none simpleDataW simpleDataW 1
      batterySolW simpleSolCharge simpleSolCharge (batterySolW_feasible 1)
      (simpleSolCharge_hydrogen 1) (simpleSolCharge_heat 1)⟩

/-- C10: in every feasible solution of either heat-pump stage, the
constraint chain mass flow → compressor capacity → heat output forces the
fixed gains `heat = heat_input · (h2 - h4)/(h1 - h4)` and
`power = heat_input · (h2 - h1)/(η_el · (h1 - h4))` — for stage one
`heat = (1230/1085) · heat_input` at `η_el = 0.9` — and the COP surrogate
values (`real_cop`) differ from these gains, the COP expressions occurring
in no constraint. -/
theorem C10_heatpump_fixed_gain (N M : ℕ) (s1 s2 : HeatpumpSol)
    (h1 : heatpumpStageOneFeasible N s1) (h2 : heatpumpStageTwoFeasible M s2) :
    heatpumpGainProperty N M s1 s2 := by
  refine ⟨?_, ?_, rfl, ?_, ?_⟩
  · intro t ht
    obtain ⟨-, -, -, -, -, -, -, -, hheat, hcap, hmass, -, -, hpow⟩ := h1 t ht
    refine ⟨?_, ?_, ?_⟩
    · rw [hheat, hcap, hmass]
      norm_num [hp1_h1, hp1_h2, hp1_h4]
      ring
    · rw [hheat, hcap, hmass]
      norm_num [hp1_h1, hp1_h2, hp1_h4]
      ring
    · rw [hpow, hcap, hmass]
      norm_num [hp1_h1, hp1_h2, hp1_h4, hp_eff]
      ring
  · intro t ht
    obtain ⟨-, -, -, -, -, -, -, -, hheat, hcap, hmass, -, -, hpow, -⟩ := h2 t ht
    refine ⟨?_, ?_⟩
    · rw [hheat, hcap, hmass]
      norm_num [hp2_h1, hp2_h2, hp2_h4]
      ring
    · rw [hpow, hcap, hmass]
      norm_num [hp2_h1, hp2_h2, hp2_h4, hp_eff]
      ring
  · norm_num [hp1_real_cop, hp1_d, hp1_ideal_cop, hp1_T3, hp1_T1, hp1_h1, hp1_h2, hp1_h4]
  · norm_num [hp2_real_cop, hp2_d, hp2_ideal_cop, hp2_T3, hp2_T1, hp2_h1, hp2_h2, hp2_h4]

/-- Witness for C10: evaluation at the all-zero heat pump solutions on
one-hour horizons. -/
theorem C10_heatpump_fixed_gain_witness :
    heatpumpStageOneFeasible 1 hpSolZero
      ∧ heatpumpStageTwoFeasible 1 hpSolZero
      ∧ heatpumpGainProperty 1 1 hpSolZero hpSolZero :=
  ⟨hpSolZero_stage_one 1, hpSolZero_stage_two 1,
    C10_heatpump_fixed_gain 1 1 hpSolZero hpSolZero
      (hpSolZero_stage_one 1) (hpSolZero_stage_two 1)⟩

end Burn4H2
